import Mathlib

/-!
Verification development for the devcontainer-generator repository.

The Python sources under helpers/ are shallowly embedded below.  External
collaborators (the tiktoken tokenizer, the jinja templating helper, the JSON
parser of the standard library and the LLM provider SDK) are modelled as
explicit parameters, exactly as the specification treats them: black boxes
with a fixed interface.  Everything that is code of the repository itself is
translated statement by statement.
-/

/- ### Python string semantics helpers -/

/-- Index of the first occurrence of `pat` in `s` (on character lists):
the smallest `i` such that `pat` is a prefix of `s.drop i`. -/
def findSub (s pat : List Char) : Option Nat :=
  if pat.isPrefixOf s then some 0
  else
    match s with
    | [] => none
    | _ :: t => (findSub t pat).map (fun n => n + 1)

/-- Python `s.find(pat)`: first index or `-1`. -/
def pyFind (s pat : String) : Int :=
  match findSub s.data pat.data with
  | some n => (n : Int)
  | none => -1

/-- Python `pat in s` (substring test). -/
def containsSub (s pat : String) : Bool :=
  (findSub s.data pat.data).isSome

/-- Python `s[:e]`, including the negative-index convention. -/
def pySliceTo (s : String) (e : Int) : String :=
  ⟨s.data.take ((if 0 ≤ e then e else (s.data.length : Int) + e).toNat)⟩

/-- Python `s[i:]`, including the negative-index convention. -/
def pySliceFrom (s : String) (i : Int) : String :=
  ⟨s.data.drop ((if 0 ≤ i then i else (s.data.length : Int) + i).toNat)⟩

/-- The whitespace characters removed by Python `str.strip()` (ASCII range). -/
def isPySpace (c : Char) : Bool :=
  c = ' ' || c = '\t' || c = '\n' || c = '\r' || c = '\x0b' || c = '\x0c'

/-- Python `s.strip()`. -/
def pyStrip (s : String) : String :=
  ⟨((s.data.dropWhile isPySpace).reverse.dropWhile isPySpace).reverse⟩

/-- Python `s.split(pat)[0]`: the text before the first occurrence of `pat`
(or all of `s` when `pat` does not occur). -/
def splitGet0 (s pat : String) : String :=
  match findSub s.data pat.data with
  | none => s
  | some i => ⟨s.data.take i⟩

/-- Python `s.split(pat)[1]`: the text between the first and the second
occurrence of `pat` (up to the end when there is no second occurrence).
The source only evaluates it under the guard `pat in s`, so the `none`
case is arbitrary. -/
def splitGet1 (s pat : String) : String :=
  match findSub s.data pat.data with
  | none => ""
  | some i =>
    let rest := s.data.drop (i + pat.data.length)
    match findSub rest pat.data with
    | none => ⟨rest⟩
    | some j => ⟨rest.take j⟩

/-- Python truthiness of an `Optional[str]` value: `None` and `""` are falsy. -/
def pyTruthy (o : Option String) : Bool :=
  match o with
  | none => false
  | some s => s ≠ ""

/-- Python `s.lower()` (ASCII). -/
def pyLower (s : String) : String :=
  ⟨s.data.map Char.toLower⟩

/-- An apostrophe character, used to spell out the literal messages of the
source faithfully. -/
def apos : String := String.singleton (Char.ofNat 39)

/- ### helpers/llm_provider.py : LLMProviderManager -/

/-- `LLMProviderManager.SUPPORTED_PROVIDERS`. -/
def SUPPORTED_PROVIDERS : List String :=
  ["AzureOpenAI", "OpenAI", "Anthropic", "Google", "Groq"]

/-- `LLMProviderManager.get_provider`.  The environment variable
`LLM_PROVIDER` is passed in as an `Option String` (`none` = unset); Python
`os.getenv` with a default yields `"AzureOpenAI"` when unset. -/
def get_provider (envProvider : Option String) : String :=
  let provider := envProvider.getD "AzureOpenAI"
  if provider ∈ SUPPORTED_PROVIDERS then provider else "AzureOpenAI"

/-- The per-provider allow-list from
`LLMProviderManager.validate_model_for_provider`. -/
def valid_models (provider : String) : List String :=
  if provider = "AzureOpenAI" then
    ["gpt-4o", "gpt-4o-mini", "gpt-4-turbo", "gpt-4", "gpt-35-turbo", "gpt-3.5-turbo"]
  else if provider = "OpenAI" then
    ["gpt-4o", "gpt-4o-mini", "gpt-4-turbo", "gpt-4", "gpt-3.5-turbo"]
  else if provider = "Anthropic" then
    ["claude-3-5-sonnet-20241022", "claude-3-opus-20240229", "claude-3-sonnet-20240229",
      "claude-3-haiku-20240307"]
  else if provider = "Google" then
    ["gemini-2.5-pro", "gemini-2.0-flash", "gemini-1.5-pro", "gemini-1.5-flash",
      "gemini-pro", "gemini-1.0-pro"]
  else if provider = "Groq" then
    ["llama-3.3-70b-versatile", "llama-3.1-70b-versatile", "llama-3.1-8b-instant",
      "mixtral-8x7b-32768", "gemma2-9b-it"]
  else []

/-- `LLMProviderManager.validate_model_for_provider`. -/
def validate_model_for_provider (model provider : String) : Bool × String :=
  let provider_models := valid_models provider
  if provider_models = [] then (true, "")
  else if provider_models.any (fun vm => containsSub model vm || containsSub vm model) then
    (true, "")
  else
    (false,
      "Model " ++ apos ++ model ++ apos ++ " may not be compatible with provider " ++ apos
        ++ provider ++ apos ++ ". Common models for " ++ provider ++ ": "
        ++ String.intercalate ", " (provider_models.take 3))

/-- The per-provider default models from `LLMProviderManager.get_default_model`. -/
def default_models (provider : String) : String :=
  if provider = "AzureOpenAI" then "gpt-4o-mini"
  else if provider = "OpenAI" then "gpt-4o-mini"
  else if provider = "Anthropic" then "claude-3-5-sonnet-20241022"
  else if provider = "Google" then "gemini-1.5-pro"
  else if provider = "Groq" then "llama-3.3-70b-versatile"
  else "gpt-4o-mini"

/-- `LLMProviderManager.get_default_model`.  `envModel` is the environment
variable `MODEL` (`none` = unset). -/
def get_default_model (envModel envProvider : Option String) : String :=
  let provider := get_provider envProvider
  let default_model := default_models provider
  match envModel with
  | none => default_model
  | some m =>
    if m = "" then default_model
    else if (validate_model_for_provider m provider).1 then m
    else default_model

/-- The model that `generate_devcontainer_json` actually passes to the
provider call (devcontainer_helpers.py line 93):
`os.getenv("MODEL") or LLMProviderManager.get_default_model()`. -/
def modelUsed (envModel envProvider : Option String) : String :=
  match envModel with
  | some m => if m = "" then get_default_model envModel envProvider else m
  | none => get_default_model envModel envProvider

/-- C6: `get_provider` is total: for every possible value of the
`LLM_PROVIDER` configuration (unset, empty, unknown or malformed) it returns
a member of the supported provider set, substituting the fixed default
`"AzureOpenAI"` when the configured value is not a member, and never
throws (in the embedding: it is a total function into the supported set). -/
theorem C6_get_provider_total (envProvider : Option String) :
    get_provider envProvider ∈ SUPPORTED_PROVIDERS ∧
      (envProvider.getD "AzureOpenAI" ∉ SUPPORTED_PROVIDERS →
        get_provider envProvider = "AzureOpenAI") := by
  by_cases hmem : envProvider.getD "AzureOpenAI" ∈ SUPPORTED_PROVIDERS
  · refine ⟨?_, fun h => absurd hmem h⟩
    simp only [get_provider, hmem, if_pos]
  · have h0 : get_provider envProvider = "AzureOpenAI" := by
      simp [get_provider, hmem]
    exact ⟨by rw [h0]; decide, fun _ => h0⟩

theorem C6_get_provider_total_witness :
    ((some "llama-cpp" : Option String).getD "AzureOpenAI" ∉ SUPPORTED_PROVIDERS) ∧
      get_provider (some "llama-cpp") = "AzureOpenAI" :=
  ⟨by decide, (C6_get_provider_total (some "llama-cpp")).2 (by decide)⟩

/-- C7: the claim states that an override model incompatible with the
provider allow-list is never passed through to the provider call, the
default being used instead.  The code contradicts this: the call site
(devcontainer_helpers.py line 93) evaluates
`os.getenv("MODEL") or get_default_model()`, so a set-but-incompatible
`MODEL` short-circuits the `or` and is used directly; the validation and
fallback inside `get_default_model` (which would return the provider
default, per its own docstring) never runs.  At the failing input
`LLM_PROVIDER=OpenAI`, `MODEL=claude-3-opus-20240229`, the incompatible
override is passed through although `validate_model_for_provider` rejects
it and `get_default_model` would substitute `gpt-4o-mini`. -/
theorem C7_incompatible_override_passed_through :
    modelUsed (some "claude-3-opus-20240229") (some "OpenAI") = "claude-3-opus-20240229" ∧
      (validate_model_for_provider "claude-3-opus-20240229" "OpenAI").1 = false ∧
      get_default_model (some "claude-3-opus-20240229") (some "OpenAI") = "gpt-4o-mini" := by
  refine ⟨rfl, by decide, by decide⟩

/- ### helpers/devcontainer_helpers.py : truncate_context -/

/-- The tiktoken encoding for `gpt-4o-mini`, an external collaborator of the
repository: a pair of encode/decode functions over token lists. -/
structure Encoding where
  encode : String → List Nat
  decode : List Nat → String

/-- The section delimiter the budgeter prioritises. -/
def languagesMarker : String := "<<END_SECTION: Repository Languages >>"

/-- The secondary delimiter the source looks up (used only for logging). -/
def structureMarker : String := "<<END_SECTION: Repository Structure >>"

/-- `truncate_context` from helpers/devcontainer_helpers.py, line by line.
`pyFind` returns `-1` when the languages delimiter is absent, and the two
Python slices `context[:languages_end]` and `context[languages_end + ...:]`
are taken with Python negative-index semantics. -/
def truncate_context (enc : Encoding) (context : String) (max_tokens : Nat := 120000) :
    String :=
  let tokens := enc.encode context
  if tokens.length ≤ max_tokens then context
  else
    let _structure_end := pyFind context structureMarker
    let languages_end := pyFind context languagesMarker
    let important_content :=
      pySliceTo context languages_end ++ languagesMarker ++ "\n\n"
    let remaining_content :=
      pySliceFrom context (languages_end + ((languagesMarker ++ "\n\n").length : Int))
    let important_tokens := enc.encode important_content
    if important_tokens.length > max_tokens then
      enc.decode (important_tokens.take max_tokens)
    else
      let remaining_tokens := max_tokens - important_tokens.length
      let truncated_remaining :=
        enc.decode ((enc.encode remaining_content).take remaining_tokens)
      important_content ++ truncated_remaining

/-- C3: for every context string and budget such that the token count of the
context is at most the budget, `truncate_context` returns the context itself,
unchanged. -/
theorem C3_truncate_identity (enc : Encoding) (context : String) (max_tokens : Nat)
    (h : (enc.encode context).length ≤ max_tokens) :
    truncate_context enc context max_tokens = context := by
  unfold truncate_context
  simp [h]

/- The concrete tokenizer used by the witnesses: one token per character. -/

def charEncoding : Encoding :=
  ⟨fun s => s.data.map Char.toNat, fun l => ⟨l.map Char.ofNat⟩⟩

theorem charEncoding_subadd (a b : String) :
    (charEncoding.encode (a ++ b)).length ≤
      (charEncoding.encode a).length + (charEncoding.encode b).length := by
  have hd : (a ++ b).data = a.data ++ b.data := rfl
  simp [charEncoding, hd]

theorem charEncoding_decode_len (l : List Nat) :
    (charEncoding.encode (charEncoding.decode l)).length ≤ l.length := by
  simp [charEncoding]

theorem C3_truncate_identity_witness :
    (charEncoding.encode "hello").length ≤ 7 ∧
      truncate_context charEncoding "hello" 7 = "hello" :=
  ⟨by decide, C3_truncate_identity charEncoding "hello" 7 (by decide)⟩

/- Helper lemmas about findSub, needed for the over-budget claims. -/

theorem isPrefixOf_exists_append :
    ∀ (p s : List Char), p.isPrefixOf s = true → ∃ t, s = p ++ t := by
  intro p
  induction p with
  | nil => intro s _; exact ⟨s, rfl⟩
  | cons a p ih =>
    intro s h
    cases s with
    | nil => simp [List.isPrefixOf] at h
    | cons b t =>
      simp only [List.isPrefixOf, Bool.and_eq_true, beq_iff_eq] at h
      obtain ⟨rfl, h2⟩ := h
      obtain ⟨u, rfl⟩ := ih t h2
      exact ⟨u, rfl⟩

theorem findSub_isPrefixOf :
    ∀ (s pat : List Char) (i : Nat), findSub s pat = some i →
      pat.isPrefixOf (s.drop i) = true := by
  intro s
  induction s with
  | nil =>
    intro pat i h
    unfold findSub at h
    split at h
    · rename_i hc
      cases h
      exact hc
    · exact absurd h (by simp)
  | cons a t ih =>
    intro pat i h
    unfold findSub at h
    split at h
    · rename_i hc
      cases h
      exact hc
    · change Option.map (fun n => n + 1) (findSub t pat) = some i at h
      cases hft : findSub t pat with
      | none => rw [hft] at h; exact absurd h (by simp)
      | some j =>
        rw [hft] at h
        simp only [Option.map_some'] at h
        cases h
        exact ih pat j hft

theorem findSub_le_length (s pat : List Char) (i : Nat) (hpat : pat ≠ [])
    (h : findSub s pat = some i) : i ≤ s.length := by
  by_contra hgt
  push_neg at hgt
  have hpre := findSub_isPrefixOf s pat i h
  rw [List.drop_eq_nil_of_le (le_of_lt hgt)] at hpre
  obtain ⟨t, ht⟩ := isPrefixOf_exists_append pat [] hpre
  exact hpat (List.append_eq_nil.mp ht.symm).1

theorem pyFind_eq_some (s pat : String) (i : Nat)
    (h : findSub s.data pat.data = some i) : pyFind s pat = (i : Int) := by
  unfold pyFind; rw [h]

theorem pyFind_eq_none (s pat : String)
    (h : findSub s.data pat.data = none) : pyFind s pat = -1 := by
  unfold pyFind; rw [h]

theorem pySliceTo_natCast (s : String) (i : Nat) :
    pySliceTo s (i : Int) = ⟨s.data.take i⟩ := by
  unfold pySliceTo
  rw [if_pos (Int.natCast_nonneg i)]
  simp

theorem str_data_append (a b : String) : (a ++ b).data = a.data ++ b.data := rfl

theorem take_len_add (A B : List Char) (m : Nat) :
    (A ++ B).take (A.length + m) = A ++ B.take m := by
  rw [List.take_append_eq_append_take, List.take_of_length_le (by omega),
    Nat.add_sub_cancel_left]

theorem take_own_length (X Y : List Char) : (X ++ Y).take X.length = X := by
  have h := take_len_add X Y 0
  simp only [Nat.add_zero, List.take_zero, List.append_nil] at h
  exact h

/-- Shared token bound: whenever the context is over budget, the truncated
result is within budget, for every tokenizer that is subadditive over
concatenation and whose re-encoding of a decoded token list does not grow. -/
theorem truncate_token_bound (enc : Encoding) (context : String) (max_tokens : Nat)
    (Hsub : ∀ a b : String,
      (enc.encode (a ++ b)).length ≤ (enc.encode a).length + (enc.encode b).length)
    (Hdec : ∀ l : List Nat, (enc.encode (enc.decode l)).length ≤ l.length)
    (h_over : max_tokens < (enc.encode context).length) :
    (enc.encode (truncate_context enc context max_tokens)).length ≤ max_tokens := by
  unfold truncate_context
  rw [if_neg (by omega)]
  dsimp only
  split
  · refine le_trans (Hdec _) ?_
    rw [List.length_take]
    exact Nat.min_le_left _ _
  · rename_i h2
    refine le_trans (Hsub _ _) ?_
    have h3 := Hdec ((enc.encode
      (pySliceFrom context
        (pyFind context languagesMarker + ((languagesMarker ++ "\n\n").length : Int)))).take
      (max_tokens - (enc.encode
        (pySliceTo context (pyFind context languagesMarker) ++ languagesMarker ++ "\n\n")).length))
    have h4 : ((enc.encode
      (pySliceFrom context
        (pyFind context languagesMarker + ((languagesMarker ++ "\n\n").length : Int)))).take
      (max_tokens - (enc.encode
        (pySliceTo context (pyFind context languagesMarker) ++ languagesMarker ++ "\n\n")).length)).length ≤
      max_tokens - (enc.encode
        (pySliceTo context (pyFind context languagesMarker) ++ languagesMarker ++ "\n\n")).length := by
      rw [List.length_take]
      exact Nat.min_le_left _ _
    omega

theorem result_prefix_take (A : List Char) (D : String) (n : Nat) (hA : A.length = n) :
    ((⟨A⟩ : String) ++ languagesMarker ++ "\n\n" ++ D).data.take
        (n + languagesMarker.data.length)
      = A ++ languagesMarker.data := by
  subst hA
  have hd : ((⟨A⟩ : String) ++ languagesMarker ++ "\n\n" ++ D).data
      = (A ++ languagesMarker.data) ++ (("\n\n" : String).data ++ D.data) := by
    simp only [str_data_append, List.append_assoc]
  rw [hd,
    show A.length + languagesMarker.data.length = (A ++ languagesMarker.data).length from
      (List.length_append _ _).symm,
    take_own_length]

/-- C4: for every context containing the Repository Languages delimiter whose
token count exceeds the budget, the truncation result has token count at most
the budget, and whenever the important content (the code prefixes the context
up to the delimiter, then re-appends the delimiter and a blank line) alone
fits within the budget, the result agrees with the context on the prefix up
to and including the delimiter.  The tokenizer is an external collaborator;
the theorem holds for every tokenizer that is subadditive over concatenation
and whose re-encoding of a decoded token list does not grow. -/
theorem C4_truncate_over_budget (enc : Encoding) (context : String) (max_tokens i : Nat)
    (Hsub : ∀ a b : String,
      (enc.encode (a ++ b)).length ≤ (enc.encode a).length + (enc.encode b).length)
    (Hdec : ∀ l : List Nat, (enc.encode (enc.decode l)).length ≤ l.length)
    (h_over : max_tokens < (enc.encode context).length)
    (h_find : findSub context.data languagesMarker.data = some i) :
    (enc.encode (truncate_context enc context max_tokens)).length ≤ max_tokens ∧
      ((enc.encode ((⟨context.data.take i⟩ : String) ++ languagesMarker ++ "\n\n")).length
          ≤ max_tokens →
        (truncate_context enc context max_tokens).data.take
            (i + languagesMarker.data.length)
          = context.data.take (i + languagesMarker.data.length)) := by
  refine ⟨truncate_token_bound enc context max_tokens Hsub Hdec h_over, ?_⟩
  intro hfit
  have hple : i ≤ context.data.length :=
    findSub_le_length context.data languagesMarker.data i (by decide) h_find
  have hlenA : (context.data.take i).length = i := by
    rw [List.length_take]; omega
  have hlenAM : (context.data.take i ++ languagesMarker.data).length
      = i + languagesMarker.data.length := by
    rw [List.length_append, hlenA]
  have hres : truncate_context enc context max_tokens =
      (⟨context.data.take i⟩ : String) ++ languagesMarker ++ "\n\n" ++
        enc.decode ((enc.encode (pySliceFrom context
            ((i : Int) + ((languagesMarker ++ "\n\n").length : Int)))).take
          (max_tokens -
            (enc.encode
              ((⟨context.data.take i⟩ : String) ++ languagesMarker ++ "\n\n")).length)) := by
    unfold truncate_context
    rw [if_neg (by omega)]
    dsimp only
    rw [pyFind_eq_some context languagesMarker i h_find, pySliceTo_natCast]
    rw [if_neg (by omega)]
  rw [hres, result_prefix_take (context.data.take i) _ i hlenA]
  obtain ⟨t, ht⟩ := isPrefixOf_exists_append _ _ (findSub_isPrefixOf _ _ _ h_find)
  have hctx : context.data = (context.data.take i ++ languagesMarker.data) ++ t := by
    conv_lhs => rw [← List.take_append_drop i context.data]
    rw [ht, List.append_assoc]
  conv_rhs => rw [hctx]
  rw [show i + languagesMarker.data.length
        = (context.data.take i ++ languagesMarker.data).length from hlenAM.symm,
    take_own_length]

theorem C4_truncate_over_budget_witness :
    40 < (charEncoding.encode (languagesMarker ++ "abcdefgh")).length ∧
      findSub (languagesMarker ++ "abcdefgh").data languagesMarker.data = some 0 ∧
      ((charEncoding.encode
          (truncate_context charEncoding (languagesMarker ++ "abcdefgh") 40)).length ≤ 40 ∧
        ((charEncoding.encode ((⟨(languagesMarker ++ "abcdefgh").data.take 0⟩ : String)
              ++ languagesMarker ++ "\n\n")).length ≤ 40 →
          (truncate_context charEncoding (languagesMarker ++ "abcdefgh") 40).data.take
              (0 + languagesMarker.data.length)
            = (languagesMarker ++ "abcdefgh").data.take
                (0 + languagesMarker.data.length))) :=
  ⟨by decide, by decide,
    C4_truncate_over_budget charEncoding (languagesMarker ++ "abcdefgh") 40 0
      charEncoding_subadd charEncoding_decode_len (by decide) (by decide)⟩

/-- C5: for every over-budget context in which the Repository Languages
delimiter does not occur, `truncate_context` still terminates with a result
(the embedding is a total function: every Python operation on this path,
including `find` returning `-1` and the negative slices `context[:-1]` and
`context[39:]`, is total, so no exception can be raised); the important
content degrades to the `context[:-1]` prefix, and the returned result is
still within the token budget. -/
theorem C5_truncate_no_delimiter (enc : Encoding) (context : String) (max_tokens : Nat)
    (Hsub : ∀ a b : String,
      (enc.encode (a ++ b)).length ≤ (enc.encode a).length + (enc.encode b).length)
    (Hdec : ∀ l : List Nat, (enc.encode (enc.decode l)).length ≤ l.length)
    (h_absent : findSub context.data languagesMarker.data = none)
    (h_over : max_tokens < (enc.encode context).length) :
    (enc.encode (truncate_context enc context max_tokens)).length ≤ max_tokens ∧
      (truncate_context enc context max_tokens =
          enc.decode ((enc.encode
            (pySliceTo context (-1) ++ languagesMarker ++ "\n\n")).take max_tokens) ∨
        ∃ rest, truncate_context enc context max_tokens =
          pySliceTo context (-1) ++ languagesMarker ++ "\n\n" ++ rest) := by
  refine ⟨truncate_token_bound enc context max_tokens Hsub Hdec h_over, ?_⟩
  unfold truncate_context
  rw [if_neg (by omega)]
  dsimp only
  rw [pyFind_eq_none context languagesMarker h_absent]
  split
  · left; rfl
  · right; exact ⟨_, rfl⟩

theorem C5_truncate_no_delimiter_witness :
    findSub ("hello world" : String).data languagesMarker.data = none ∧
      5 < (charEncoding.encode "hello world").length ∧
      ((charEncoding.encode (truncate_context charEncoding "hello world" 5)).length ≤ 5 ∧
        (truncate_context charEncoding "hello world" 5 =
            charEncoding.decode ((charEncoding.encode
              (pySliceTo "hello world" (-1) ++ languagesMarker ++ "\n\n")).take 5) ∨
          ∃ rest, truncate_context charEncoding "hello world" 5 =
            pySliceTo "hello world" (-1) ++ languagesMarker ++ "\n\n" ++ rest)) :=
  ⟨by decide, by decide,
    C5_truncate_no_delimiter charEncoding "hello world" 5
      charEncoding_subadd charEncoding_decode_len (by decide) (by decide)⟩

/- ### helpers/devcontainer_helpers.py : validate_devcontainer_json -/

/-- JSON values (numbers restricted to integers: the target schema only
distinguishes integers, and no claim involves fractional numbers). -/
inductive Json where
  | null
  | bool (b : Bool)
  | num (n : Int)
  | str (s : String)
  | arr (elems : List Json)
  | obj (fields : List (String × Json))

/-- The two exception classes the validator catches:
`json.JSONDecodeError` and `jsonschema.exceptions.ValidationError`. -/
inductive PyExc where
  | jsonDecodeError (msg : String)
  | validationError (msg : String) (schemaPath : String)

/-- First binding of a key in a JSON object. -/
def jlookup (fields : List (String × Json)) (key : String) : Option Json :=
  match fields with
  | [] => none
  | (k, v) :: t => if k = key then some v else jlookup t key

def isStr : Json → Bool
  | .str _ => true
  | _ => false

def isIntNum : Json → Bool
  | .num _ => true
  | _ => false

def isObj : Json → Bool
  | .obj _ => true
  | _ => false

/-- Modelled from the spec: the schema file
`schemas/devContainer.base.schema.json` that `validate_devcontainer_json`
loads from disk is not part of the given sources.  Per the spec the artifact
schema requires `name` and `image` as strings, optionally accepts
`forwardPorts` (a list of integers), `customizations` and `settings`
(string-keyed maps), `postCreateCommand` (a string), and permits additional
unrecognized fields.  `jsonschema.validate` raises a `ValidationError`
carrying a message and a schema path on the first violation and returns
`()` on success. -/
def jsonschema_validate (instance_ : Json) : Except PyExc Unit :=
  match instance_ with
  | .obj fields =>
    match jlookup fields "name" with
    | none => .error (.validationError "name is a required property" "required")
    | some v =>
      if !isStr v then .error (.validationError "name is not of type string" "properties.name.type")
      else
        match jlookup fields "image" with
        | none => .error (.validationError "image is a required property" "required")
        | some iv =>
          if !isStr iv then
            .error (.validationError "image is not of type string" "properties.image.type")
          else
            let fpOk :=
              match jlookup fields "forwardPorts" with
              | none => true
              | some (.arr es) => es.all isIntNum
              | some _ => false
            if !fpOk then
              .error (.validationError "forwardPorts is not a list of integers"
                "properties.forwardPorts")
            else
              let custOk :=
                match jlookup fields "customizations" with
                | none => true
                | some c => isObj c
              if !custOk then
                .error (.validationError "customizations is not of type object"
                  "properties.customizations.type")
              else
                let setOk :=
                  match jlookup fields "settings" with
                  | none => true
                  | some c => isObj c
                if !setOk then
                  .error (.validationError "settings is not of type object"
                    "properties.settings.type")
                else
                  let pccOk :=
                    match jlookup fields "postCreateCommand" with
                    | none => true
                    | some c => isStr c
                  if !pccOk then
                    .error (.validationError "postCreateCommand is not of type string"
                      "properties.postCreateCommand.type")
                  else .ok ()
  | _ => .error (.validationError "instance is not of type object" "type")

/-- `validate_devcontainer_json` from helpers/devcontainer_helpers.py.
`parse` is `json.loads` of the standard library (an external collaborator):
it yields a value or raises a `JSONDecodeError` with a message.  The `try`
body parses, then schema-validates, then returns `True`; the two `except`
clauses catch the two exception classes, log a diagnostic and return
`False`.  The embedding returns the boolean together with the logged
diagnostic lines, inside `Except PyExc` so that an uncaught exception would
be visible as an `.error` value. -/
def validate_devcontainer_json (parse : String → Except String Json)
    (devcontainer_json : String) : Except PyExc (Bool × List String) :=
  let body : Except PyExc Bool :=
    match parse devcontainer_json with
    | .error m => .error (.jsonDecodeError m)
    | .ok parsed_json =>
      match jsonschema_validate parsed_json with
      | .error e => .error e
      | .ok _ => .ok true
  match body with
  | .ok b => .ok (b, ["Validation successful."])
  | .error (.jsonDecodeError m) => .ok (false, ["JSON parsing failed: " ++ m])
  | .error (.validationError m sp) =>
    .ok (false, ["Schema validation failed: " ++ m, "Schema path: " ++ sp])

/-- The boolean outcome of the validator, as consumed by the orchestrator
(the `.error` fallback is unreachable, see `C8_validate_never_raises`). -/
def validateOk (parse : String → Except String Json) (devcontainer_json : String) : Bool :=
  match validate_devcontainer_json parse devcontainer_json with
  | .ok (b, _) => b
  | .error _ => false

/-- Pass/fail verdict of the bare schema check. -/
def schemaPass (j : Json) : Bool :=
  match jsonschema_validate j with
  | .ok _ => true
  | .error _ => false

/-- C8: `validate_devcontainer_json` never raises: the two except clauses
cover every exception its body can raise, so for every input string it
returns a result value (never an `.error`); when the text does not parse
as JSON the result is a fail verdict carrying a malformed-JSON diagnostic
(and no schema-path detail), and otherwise the verdict is the pass/fail
outcome of schema validation. -/
theorem C8_validate_never_raises (parse : String → Except String Json) (s : String) :
    (∃ b logs, validate_devcontainer_json parse s = .ok (b, logs)) ∧
      (∀ m, parse s = .error m →
        validate_devcontainer_json parse s = .ok (false, ["JSON parsing failed: " ++ m])) ∧
      (∀ j, parse s = .ok j →
        ∃ logs, validate_devcontainer_json parse s = .ok (schemaPass j, logs)) := by
  refine ⟨?_, ?_, ?_⟩
  · cases hp : parse s with
    | error m =>
      exact ⟨false, ["JSON parsing failed: " ++ m],
        by simp [validate_devcontainer_json, hp]⟩
    | ok j =>
      cases hv : jsonschema_validate j with
      | ok u =>
        exact ⟨true, ["Validation successful."],
          by simp [validate_devcontainer_json, hp, hv]⟩
      | error e =>
        cases e with
        | jsonDecodeError m =>
          exact ⟨false, ["JSON parsing failed: " ++ m],
            by simp [validate_devcontainer_json, hp, hv]⟩
        | validationError m sp =>
          exact ⟨false, ["Schema validation failed: " ++ m, "Schema path: " ++ sp],
            by simp [validate_devcontainer_json, hp, hv]⟩
  · intro m hm
    simp [validate_devcontainer_json, hm]
  · intro j hj
    cases hv : jsonschema_validate j with
    | ok u =>
      exact ⟨["Validation successful."],
        by simp [validate_devcontainer_json, schemaPass, hj, hv]⟩
    | error e =>
      cases e with
      | jsonDecodeError m =>
        exact ⟨["JSON parsing failed: " ++ m],
          by simp [validate_devcontainer_json, schemaPass, hj, hv]⟩
      | validationError m sp =>
        exact ⟨["Schema validation failed: " ++ m, "Schema path: " ++ sp],
          by simp [validate_devcontainer_json, schemaPass, hj, hv]⟩

/-- A concrete stand-in for `json.loads` used by the witnesses: accepts one
fixed document, rejects everything else. -/
def wParse : String → Except String Json :=
  fun s =>
    if s = "GOOD" then
      .ok (.obj [("name", .str "n"), ("image", .str "img")])
    else .error "Expecting value: line 1 column 1 (char 0)"

theorem C8_validate_never_raises_witness :
    validate_devcontainer_json wParse "nonsense" =
        .ok (false, ["JSON parsing failed: Expecting value: line 1 column 1 (char 0)"]) :=
  (C8_validate_never_raises wParse "nonsense").2.1
    "Expecting value: line 1 column 1 (char 0)" rfl

/- ### helpers/devcontainer_helpers.py : generate_devcontainer_json -/

/-- The arguments of one `instructor_client.chat.completions.create` call:
the attempt index it belongs to, the model passed, the response model
(the target schema, always `DevContainerModel`), the temperature parameter
(`none` when omitted), the instructor-internal `max_retries` setting and the
messages list (role, content). -/
structure CallArgs where
  attempt : Nat
  model : String
  response_model : String
  temperature : Option String
  instructor_retries : Nat
  messages : List (String × String)
deriving DecidableEq

/-- Outcome of one adapter call, as seen by the orchestrator: a structured
response already serialized by `json.dumps(response.dict(exclude_none=True),
indent=2)` to the candidate JSON text, or a raised exception.
`attrError` is an `AttributeError` (re-raised by the first inner handler
without inspecting its message), `apiError` any other exception, whose
message the source inspects for known signatures. -/
inductive CallOutcome where
  | success (devcontainer_json : String)
  | apiError (msg : String)
  | attrError (msg : String)

/-- The existing-devcontainer markers. -/
def existingStartMarker : String := "<<EXISTING_DEVCONTAINER>>"

def existingEndMarker : String := "<<END_EXISTING_DEVCONTAINER>>"

/-- Lines 68-72 of helpers/devcontainer_helpers.py:
`repo_context.split("<<EXISTING_DEVCONTAINER>>")[1]
  .split("<<END_EXISTING_DEVCONTAINER>>")[0].strip()`. -/
def extractExisting (repo_context : String) : String :=
  pyStrip (splitGet0 (splitGet1 repo_context existingStartMarker) existingEndMarker)

/-- The fixed system message of both provider calls. -/
def systemContent : String :=
  "You are a helpful assistant that generates valid, complete devcontainer.json files. Ensure all JSON is properly closed with matching braces."

def mkCall (attempt : Nat) (model : String) (temperature : Option String)
    (prompt : String) : CallArgs :=
  ⟨attempt, model, "DevContainerModel", temperature, 2,
    [("system", systemContent), ("user", prompt)]⟩

/-- The error signature of lines 122: a failed tool call. -/
def toolSig (m : String) : Bool :=
  containsSub (pyLower m) "tool_use_failed" || containsSub (pyLower m) "failed to call a function"

/-- The error signature of line 133: temperature unsupported. -/
def tempSig (m : String) : Bool :=
  containsSub (pyLower m) "does not support" || containsSub (pyLower m) "temperature"

/-- The `ValueError` message of lines 127-132 (providers that cannot produce
structured output, raised when the tool-calling signature persists on the
final attempt). -/
def groqFailMsg : String :=
  "The LLM provider failed to generate valid structured output after multiple attempts. This is a known limitation with some providers (especially Groq with complex schemas). Recommendation: Switch to OpenAI or Anthropic for better reliability. Run: ./switch_to_openai.sh"

/-- The `ValueError` message of lines 165-169, raised when validation still
fails on the final attempt (identical to the message a caller observes on
exhaustion; the per-attempt diagnostics only go to the logs). -/
def exhaustedMsg : String :=
  "Failed to generate valid devcontainer.json after maximum retries. Check logs for validation errors. This may be due to the LLM provider" ++ apos
    ++ "s capabilities with structured outputs."

/-- Lines 148-169: serialize (folded into the adapter outcome), validate,
and either return or fail the attempt.  On validation success: if an
existing devcontainer is truthy and regeneration was not requested, the
embedded artifact and the original URL are returned (line 155-156),
otherwise the generated JSON with a `none` URL (line 158).  On validation
failure the attempt fails carrying the exhaustion message (the message that
is raised if no retries remain). -/
def finishAttempt (parse : String → Except String Json)
    (existing_devcontainer devcontainer_url : Option String) (regenerate : Bool)
    (devcontainer_json : String) : Except String (String × Option String) :=
  if validateOk parse devcontainer_json then
    if pyTruthy existing_devcontainer && !regenerate then
      .ok (existing_devcontainer.getD "", devcontainer_url)
    else
      .ok (devcontainer_json, none)
  else
    .error exhaustedMsg

/-- The body of one `for` iteration (lines 91-169): the provider call with
`temperature=0.1`, the inner error handlers (tool-calling failure signature,
temperature-unsupported signature with a single retry omitting the
parameter, generic re-raise) and validation.  Returns the calls made, the
next call counter, and either the function result or the message of the
exception that reaches the outer handler of this attempt. -/
def attemptStep (adapter : Nat → CallOutcome) (parse : String → Except String Json)
    (model prompt : String) (existing_devcontainer devcontainer_url : Option String)
    (regenerate : Bool) (attempt callIdx : Nat) :
    List CallArgs × Nat × Except String (String × Option String) :=
  let c1 := mkCall attempt model (some "0.1") prompt
  match adapter callIdx with
  | .success j =>
    ([c1], callIdx + 1,
      finishAttempt parse existing_devcontainer devcontainer_url regenerate j)
  | .attrError m => ([c1], callIdx + 1, .error m)
  | .apiError m =>
    if toolSig m then ([c1], callIdx + 1, .error groqFailMsg)
    else if tempSig m then
      let c2 := mkCall attempt model none prompt
      match adapter (callIdx + 1) with
      | .success j =>
        ([c1, c2], callIdx + 2,
          finishAttempt parse existing_devcontainer devcontainer_url regenerate j)
      | .apiError m2 => ([c1, c2], callIdx + 2, .error m2)
      | .attrError m2 => ([c1, c2], callIdx + 2, .error m2)
    else ([c1], callIdx + 1, .error m)

/-- The retry loop `for attempt in range(max_retries + 1)` (line 90) with
the outer `except` (lines 170-173): an attempt that fails while retries
remain falls through to the next attempt; on the last attempt the pending
exception is re-raised.  `remaining` counts the retries left, so
`remaining = 0` is the final attempt (`attempt == max_retries`). -/
def genLoop (adapter : Nat → CallOutcome) (parse : String → Except String Json)
    (model prompt : String) (existing_devcontainer devcontainer_url : Option String)
    (regenerate : Bool) (attempt callIdx : Nat) :
    Nat → List CallArgs × Except String (String × Option String)
  | 0 =>
    let (calls, _, res) := attemptStep adapter parse model prompt existing_devcontainer
      devcontainer_url regenerate attempt callIdx
    (calls, res)
  | remaining + 1 =>
    let (calls, callIdx2, res) := attemptStep adapter parse model prompt
      existing_devcontainer devcontainer_url regenerate attempt callIdx
    match res with
    | .ok v => (calls, .ok v)
    | .error _ =>
      let (calls2, res2) := genLoop adapter parse model prompt existing_devcontainer
        devcontainer_url regenerate (attempt + 1) callIdx2 remaining
      (calls ++ calls2, res2)

/-- `generate_devcontainer_json` from helpers/devcontainer_helpers.py.
External collaborators are parameters: `enc` the tiktoken encoding used by
`truncate_context`, `tmpl` the jinja rendering
`process_template("prompts/devcontainer.jinja", {repo_url, repo_context,
existing_devcontainer})`, `adapter` the instructor-wrapped provider client
(the outcome of the n-th call of this invocation), `parse` the JSON parser
used by validation, and the two environment variables read on line 93.
Returns the trace of provider calls together with the result: `.ok`
(devcontainer json, origin url) or `.error` message for a raised error. -/
def generate_devcontainer_json (enc : Encoding)
    (tmpl : String → String → Option String → String)
    (adapter : Nat → CallOutcome) (parse : String → Except String Json)
    (envModel envProvider : Option String)
    (repo_url repo_context : String) (devcontainer_url : Option String := none)
    (max_retries : Nat := 3) (regenerate : Bool := false) :
    List CallArgs × Except String (String × Option String) :=
  let existing_devcontainer : Option String :=
    if containsSub repo_context existingStartMarker then
      some (extractExisting repo_context)
    else none
  if containsSub repo_context existingStartMarker
      && (!regenerate && pyTruthy devcontainer_url) then
    ([], .ok (extractExisting repo_context, devcontainer_url))
  else
    let truncated_context := truncate_context enc repo_context 126000
    let prompt := tmpl repo_url truncated_context existing_devcontainer
    genLoop adapter parse (modelUsed envModel envProvider) prompt
      existing_devcontainer devcontainer_url regenerate 0 0 max_retries

/- Helper lemmas about the orchestrator loop. -/

theorem attemptStep_calls_shape (adapter : Nat → CallOutcome)
    (parse : String → Except String Json) (model prompt : String)
    (ex url : Option String) (regen : Bool) (attempt callIdx : Nat) :
    (attemptStep adapter parse model prompt ex url regen attempt callIdx).1
        = [mkCall attempt model (some "0.1") prompt] ∨
      (attemptStep adapter parse model prompt ex url regen attempt callIdx).1
        = [mkCall attempt model (some "0.1") prompt, mkCall attempt model none prompt] := by
  simp only [attemptStep]
  cases adapter callIdx with
  | success j => left; rfl
  | attrError m => left; rfl
  | apiError m =>
    by_cases ht : toolSig m = true
    · left; simp [ht]
    · by_cases h2 : tempSig m = true
      · cases adapter (callIdx + 1) with
        | success j => right; simp [ht, h2]
        | apiError m2 => right; simp [ht, h2]
        | attrError m2 => right; simp [ht, h2]
      · left; simp [ht, h2]

theorem attemptStep_attempt (adapter : Nat → CallOutcome)
    (parse : String → Except String Json) (model prompt : String)
    (ex url : Option String) (regen : Bool) (attempt callIdx : Nat) :
    ∀ c ∈ (attemptStep adapter parse model prompt ex url regen attempt callIdx).1,
      c.attempt = attempt := by
  intro c hc
  rcases attemptStep_calls_shape adapter parse model prompt ex url regen attempt callIdx
    with hs | hs <;> rw [hs] at hc <;> simp at hc
  · subst hc; rfl
  · rcases hc with hc | hc <;> (subst hc; rfl)

theorem genLoop_attempt_ge (adapter : Nat → CallOutcome)
    (parse : String → Except String Json) (model prompt : String)
    (ex url : Option String) (regen : Bool) :
    ∀ (remaining attempt callIdx : Nat),
      ∀ c ∈ (genLoop adapter parse model prompt ex url regen attempt callIdx remaining).1,
        attempt ≤ c.attempt := by
  intro remaining
  induction remaining with
  | zero =>
    intro attempt callIdx c hc
    rcases hAS : attemptStep adapter parse model prompt ex url regen attempt callIdx
      with ⟨calls, idx2, res⟩
    simp only [genLoop, hAS] at hc
    have := attemptStep_attempt adapter parse model prompt ex url regen attempt callIdx c
      (by rw [hAS]; exact hc)
    omega
  | succ r ih =>
    intro attempt callIdx c hc
    rcases hAS : attemptStep adapter parse model prompt ex url regen attempt callIdx
      with ⟨calls, idx2, res⟩
    simp only [genLoop, hAS] at hc
    cases res with
    | ok v =>
      simp only at hc
      have := attemptStep_attempt adapter parse model prompt ex url regen attempt callIdx c
        (by rw [hAS]; exact hc)
      omega
    | error e =>
      rcases hGL : genLoop adapter parse model prompt ex url regen (attempt + 1) idx2 r
        with ⟨calls2, res2⟩
      simp only [hGL, List.mem_append] at hc
      rcases hc with hc | hc
      · have := attemptStep_attempt adapter parse model prompt ex url regen attempt callIdx c
          (by rw [hAS]; exact hc)
        omega
      · have := ih (attempt + 1) idx2 c (by rw [hGL]; exact hc)
        omega

/-- One attempt whose provider call succeeds with output failing validation:
a single call, and the attempt fails carrying the exhaustion message. -/
theorem attemptStep_invalid (adapter : Nat → CallOutcome)
    (parse : String → Except String Json) (model prompt : String)
    (ex url : Option String) (regen : Bool) (attempt callIdx : Nat) (s : String)
    (hA : adapter callIdx = .success s) (hv : validateOk parse s = false) :
    attemptStep adapter parse model prompt ex url regen attempt callIdx
      = ([mkCall attempt model (some "0.1") prompt], callIdx + 1, .error exhaustedMsg) := by
  simp [attemptStep, hA, finishAttempt, hv]

/-- C1 (amended): for every adapter whose every call yields output that
fails schema validation, and `max_retries = 2`, the orchestrator performs
exactly 3 attempts (initial plus 2 retries) and then fails by raising the
fixed summary `ValueError` of lines 165-169, which refers the caller to the
logs; the per-attempt validation diagnostics appear only in the logs, not
in the raised message (see `C1_counterexample` for the claim as stated). -/
theorem C1_exhaustion_three_attempts (enc : Encoding)
    (tmpl : String → String → Option String → String)
    (adapter : Nat → CallOutcome) (parse : String → Except String Json)
    (envModel envProvider : Option String) (repo_url repo_context : String)
    (devcontainer_url : Option String) (regenerate : Bool)
    (h_sc : (containsSub repo_context existingStartMarker
        && (!regenerate && pyTruthy devcontainer_url)) = false)
    (hbad : ∀ n, ∃ s, adapter n = .success s ∧ validateOk parse s = false) :
    ((generate_devcontainer_json enc tmpl adapter parse envModel envProvider
        repo_url repo_context devcontainer_url 2 regenerate).1.map
          (fun c => c.attempt) = [0, 1, 2]) ∧
      (generate_devcontainer_json enc tmpl adapter parse envModel envProvider
          repo_url repo_context devcontainer_url 2 regenerate).2
        = .error exhaustedMsg := by
  obtain ⟨s0, ha0, hv0⟩ := hbad 0
  obtain ⟨s1, ha1, hv1⟩ := hbad 1
  obtain ⟨s2, ha2, hv2⟩ := hbad 2
  have key : ∀ (M P : String) (EX : Option String),
      genLoop adapter parse M P EX devcontainer_url regenerate 0 0 2
        = ([mkCall 0 M (some "0.1") P, mkCall 1 M (some "0.1") P,
            mkCall 2 M (some "0.1") P], .error exhaustedMsg) := by
    intro M P EX
    have h0 :=
      attemptStep_invalid adapter parse M P EX devcontainer_url regenerate 0 0 s0 ha0 hv0
    have h1 :=
      attemptStep_invalid adapter parse M P EX devcontainer_url regenerate 1 1 s1 ha1 hv1
    have h2 :=
      attemptStep_invalid adapter parse M P EX devcontainer_url regenerate 2 2 s2 ha2 hv2
    simp [genLoop, h0, h1, h2]
  simp only [generate_devcontainer_json, h_sc, Bool.false_eq_true, if_false, key]
  simp [mkCall]

def wTmpl : String → String → Option String → String := fun _ _ _ => "PROMPT"

def wAdapterBadJson : Nat → CallOutcome := fun _ => .success "BAD"

theorem C1_exhaustion_three_attempts_witness :
    (containsSub "ctx" existingStartMarker && (!false && pyTruthy none)) = false ∧
      (((generate_devcontainer_json charEncoding wTmpl wAdapterBadJson wParse none none
          "u" "ctx" none 2 false).1.map (fun c => c.attempt) = [0, 1, 2]) ∧
        (generate_devcontainer_json charEncoding wTmpl wAdapterBadJson wParse none none
            "u" "ctx" none 2 false).2 = .error exhaustedMsg) :=
  ⟨by decide,
    C1_exhaustion_three_attempts charEncoding wTmpl wAdapterBadJson wParse none none
      "u" "ctx" none false (by decide)
      (fun _ => ⟨"BAD", rfl, by decide⟩)⟩

set_option maxRecDepth 8192 in
/-- C1 counterexample to the claim as stated: at a concrete always-invalid
adapter with `max_retries = 2`, the raised error message is the fixed
summary text, and the last validation failure diagnostic (the parse-error
line that `validate_devcontainer_json` logs) is not contained in it: the
caller gets an unspecific summary, contrary to the claim. -/
theorem C1_counterexample :
    (generate_devcontainer_json charEncoding wTmpl wAdapterBadJson wParse none none
        "u" "ctx" none 2 false).2 = .error exhaustedMsg ∧
      validate_devcontainer_json wParse "BAD"
        = .ok (false, ["JSON parsing failed: Expecting value: line 1 column 1 (char 0)"]) ∧
      containsSub exhaustedMsg "Expecting value" = false ∧
      containsSub exhaustedMsg "JSON parsing failed" = false := by
  exact ⟨rfl, rfl, by decide, by decide⟩

theorem drop_own_length (X Y : List Char) : (X ++ Y).drop X.length = Y :=
  List.drop_left X Y

/-- For a context of the shape `pre ++ start ++ art ++ end ++ post` whose
first start-marker occurrence is the embedding one, with no further
start-marker occurrence after it and whose first end-marker occurrence after
it delimits `art`, the source expression
`split(start)[1].split(end)[0].strip()` yields exactly the stripped embedded
artifact text. -/
theorem extractExisting_of_shape (pre art post : String)
    (h1 : findSub (pre ++ existingStartMarker ++ art ++ existingEndMarker ++ post).data
        existingStartMarker.data = some pre.data.length)
    (h2 : findSub ((art ++ existingEndMarker ++ post) : String).data
        existingStartMarker.data = none)
    (h3 : findSub ((art ++ existingEndMarker ++ post) : String).data
        existingEndMarker.data = some art.data.length) :
    extractExisting (pre ++ existingStartMarker ++ art ++ existingEndMarker ++ post)
      = pyStrip art := by
  have hdata : (pre ++ existingStartMarker ++ art ++ existingEndMarker ++ post).data
      = (pre.data ++ existingStartMarker.data)
          ++ ((art ++ existingEndMarker ++ post) : String).data := by
    simp only [str_data_append, List.append_assoc]
  have hdrop : (pre ++ existingStartMarker ++ art ++ existingEndMarker ++ post).data.drop
        (pre.data.length + existingStartMarker.data.length)
      = ((art ++ existingEndMarker ++ post) : String).data := by
    rw [hdata,
      show pre.data.length + existingStartMarker.data.length
          = (pre.data ++ existingStartMarker.data).length from (List.length_append _ _).symm,
      drop_own_length]
  have hsplit1 : splitGet1 (pre ++ existingStartMarker ++ art ++ existingEndMarker ++ post)
      existingStartMarker = art ++ existingEndMarker ++ post := by
    unfold splitGet1
    rw [h1]
    simp only
    rw [hdrop, h2]
  have hsplit0 : splitGet0 (art ++ existingEndMarker ++ post) existingEndMarker = art := by
    unfold splitGet0
    rw [h3]
    dsimp only
    have hR : ((art ++ existingEndMarker ++ post) : String).data
        = art.data ++ (existingEndMarker.data ++ post.data) := by
      simp only [str_data_append, List.append_assoc]
    rw [hR, take_own_length]
  unfold extractExisting
  rw [hsplit1, hsplit0]

/-- C2 (amended): for every repository context embedding an existing
devcontainer between the markers, when `regenerate` is false and a non-null
and non-empty `devcontainer_url` is supplied (Python truthiness: the source
guards with `if not regenerate and devcontainer_url`), the function returns
the embedded artifact text (stripped, otherwise unmodified) together with
the original URL, and performs zero provider invocations.  See
`C2_counterexample`: with the non-null but empty URL `""` the claim as
stated fails, because the guard is falsy and a provider call is made. -/
theorem C2_short_circuit (enc : Encoding)
    (tmpl : String → String → Option String → String)
    (adapter : Nat → CallOutcome) (parse : String → Except String Json)
    (envModel envProvider : Option String) (repo_url : String)
    (pre art post u : String) (max_retries : Nat)
    (hu : u ≠ "")
    (h1 : findSub (pre ++ existingStartMarker ++ art ++ existingEndMarker ++ post).data
        existingStartMarker.data = some pre.data.length)
    (h2 : findSub ((art ++ existingEndMarker ++ post) : String).data
        existingStartMarker.data = none)
    (h3 : findSub ((art ++ existingEndMarker ++ post) : String).data
        existingEndMarker.data = some art.data.length) :
    generate_devcontainer_json enc tmpl adapter parse envModel envProvider repo_url
        (pre ++ existingStartMarker ++ art ++ existingEndMarker ++ post)
        (some u) max_retries false
      = ([], .ok (pyStrip art, some u)) := by
  have hcont : containsSub (pre ++ existingStartMarker ++ art ++ existingEndMarker ++ post)
      existingStartMarker = true := by
    unfold containsSub
    rw [h1]
    rfl
  have hpt : pyTruthy (some u) = true := by
    simp [pyTruthy, hu]
  simp only [generate_devcontainer_json, hcont, hpt, Bool.not_false, Bool.true_and,
    Bool.and_self, if_true]
  rw [extractExisting_of_shape pre art post h1 h2 h3]

def wCtx : String :=
  "A<<EXISTING_DEVCONTAINER>> X <<END_EXISTING_DEVCONTAINER>>B"

def wAdapterGood : Nat → CallOutcome := fun _ => .success "GOOD"

set_option maxRecDepth 8192 in
/-- C2 counterexample to the claim as stated: the URL `""` is non-null, yet
with `regenerate = False` the orchestrator does not short-circuit (Python
truthiness makes the guard false) and performs a provider invocation: the
call trace has length 1, not 0. -/
theorem C2_counterexample :
    (generate_devcontainer_json charEncoding wTmpl wAdapterGood wParse none none
        "u" wCtx (some "") 2 false).1.length = 1 ∧
      (generate_devcontainer_json charEncoding wTmpl wAdapterGood wParse none none
          "u" wCtx (some "") 2 false).2 = .ok ("X", some "") := by
  constructor
  · rfl
  · rfl

set_option maxRecDepth 8192 in
theorem C2_short_circuit_witness :
    ("" ≠ "x") ∧
      generate_devcontainer_json charEncoding wTmpl wAdapterGood wParse none none
          "u" ("A" ++ existingStartMarker ++ " X " ++ existingEndMarker ++ "B")
          (some "x") 2 false
        = ([], .ok (pyStrip " X ", some "x")) :=
  ⟨by decide,
    C2_short_circuit charEncoding wTmpl wAdapterGood wParse none none "u"
      "A" " X " "B" "x" 2 (by decide) (by decide) (by decide) (by decide)⟩

/-- C10: for every repository context embedding an existing (non-empty)
devcontainer, when `regenerate` is false but the prior artifact URL is
`None`, the orchestrator does not short-circuit: it invokes the provider
(exactly one call here, whose output passes validation), then discards the
freshly generated artifact and returns the embedded existing artifact with
a `None` URL (lines 155-156). -/
theorem C10_none_url_returns_existing (enc : Encoding)
    (tmpl : String → String → Option String → String)
    (adapter : Nat → CallOutcome) (parse : String → Except String Json)
    (envModel envProvider : Option String) (repo_url : String)
    (pre art post : String) (max_retries : Nat) (s : String)
    (h1 : findSub (pre ++ existingStartMarker ++ art ++ existingEndMarker ++ post).data
        existingStartMarker.data = some pre.data.length)
    (h2 : findSub ((art ++ existingEndMarker ++ post) : String).data
        existingStartMarker.data = none)
    (h3 : findSub ((art ++ existingEndMarker ++ post) : String).data
        existingEndMarker.data = some art.data.length)
    (hex : pyStrip art ≠ "")
    (hA : adapter 0 = .success s)
    (hv : validateOk parse s = true) :
    (generate_devcontainer_json enc tmpl adapter parse envModel envProvider repo_url
        (pre ++ existingStartMarker ++ art ++ existingEndMarker ++ post)
        none max_retries false).1.length = 1 ∧
      (generate_devcontainer_json enc tmpl adapter parse envModel envProvider repo_url
          (pre ++ existingStartMarker ++ art ++ existingEndMarker ++ post)
          none max_retries false).2 = .ok (pyStrip art, none) := by
  have hcont : containsSub (pre ++ existingStartMarker ++ art ++ existingEndMarker ++ post)
      existingStartMarker = true := by
    unfold containsSub
    rw [h1]
    rfl
  have hext := extractExisting_of_shape pre art post h1 h2 h3
  have hstep : ∀ M P : String,
      attemptStep adapter parse M P (some (pyStrip art)) none false 0 0
        = ([mkCall 0 M (some "0.1") P], 1, .ok (pyStrip art, none)) := by
    intro M P
    simp [attemptStep, hA, finishAttempt, hv, pyTruthy, hex]
  have hloop : ∀ M P : String,
      genLoop adapter parse M P (some (pyStrip art)) none false 0 0 max_retries
        = ([mkCall 0 M (some "0.1") P], .ok (pyStrip art, none)) := by
    intro M P
    cases max_retries with
    | zero => simp [genLoop, hstep M P]
    | succ r => simp [genLoop, hstep M P]
  simp only [generate_devcontainer_json, hcont, hext, pyTruthy, Bool.and_false,
    Bool.false_eq_true, if_false, if_true, hloop]
  simp

set_option maxRecDepth 8192 in
theorem C10_none_url_returns_existing_witness :
    pyStrip " X " ≠ "" ∧ validateOk wParse "GOOD" = true ∧
      ((generate_devcontainer_json charEncoding wTmpl wAdapterGood wParse none none
          "u" ("A" ++ existingStartMarker ++ " X " ++ existingEndMarker ++ "B")
          none 2 false).1.length = 1 ∧
        (generate_devcontainer_json charEncoding wTmpl wAdapterGood wParse none none
            "u" ("A" ++ existingStartMarker ++ " X " ++ existingEndMarker ++ "B")
            none 2 false).2 = .ok (pyStrip " X ", none)) :=
  ⟨by decide, by decide,
    C10_none_url_returns_existing charEncoding wTmpl wAdapterGood wParse none none "u"
      "A" " X " "B" 2 "GOOD" (by decide) (by decide) (by decide) (by decide) rfl
      (by decide)⟩

/-- C9: for every provider call that fails with a temperature-unsupported
error signature (and not with the tool-calling-failed signature, which the
source checks first), the orchestrator retries that call exactly once with
the temperature parameter omitted and the same model, response schema and
messages, within the same attempt.  First conjunct: in every attempt, at
every call counter, the failing call is followed by exactly one further
call, identical except for the omitted temperature.  Second conjunct,
end to end: when the first call fails that way, the attempt-0 calls of the
whole run are exactly those two. -/
theorem C9_temperature_fallback (enc : Encoding)
    (tmpl : String → String → Option String → String)
    (adapter : Nat → CallOutcome) (parse : String → Except String Json)
    (envModel envProvider : Option String) (repo_url repo_context : String)
    (devcontainer_url : Option String) (max_retries : Nat) (regenerate : Bool)
    (m : String)
    (hm1 : tempSig m = true) (hm2 : toolSig m = false) :
    (∀ (model prompt : String) (existing : Option String) (attempt callIdx : Nat),
      adapter callIdx = .apiError m →
        (attemptStep adapter parse model prompt existing devcontainer_url regenerate
            attempt callIdx).1
          = [mkCall attempt model (some "0.1") prompt, mkCall attempt model none prompt]) ∧
      ((containsSub repo_context existingStartMarker
          && (!regenerate && pyTruthy devcontainer_url)) = false →
        adapter 0 = .apiError m →
        (generate_devcontainer_json enc tmpl adapter parse envModel envProvider repo_url
            repo_context devcontainer_url max_retries regenerate).1.filter
              (fun c => c.attempt == 0)
          = [mkCall 0 (modelUsed envModel envProvider) (some "0.1")
              (tmpl repo_url (truncate_context enc repo_context 126000)
                (if containsSub repo_context existingStartMarker then
                  some (extractExisting repo_context) else none)),
            mkCall 0 (modelUsed envModel envProvider) none
              (tmpl repo_url (truncate_context enc repo_context 126000)
                (if containsSub repo_context existingStartMarker then
                  some (extractExisting repo_context) else none))]) := by
  have partA : ∀ (model prompt : String) (existing : Option String) (attempt callIdx : Nat),
      adapter callIdx = .apiError m →
        (attemptStep adapter parse model prompt existing devcontainer_url regenerate
            attempt callIdx).1
          = [mkCall attempt model (some "0.1") prompt, mkCall attempt model none prompt] := by
    intro model prompt existing attempt callIdx hA
    simp only [attemptStep, hA, hm2, hm1, Bool.false_eq_true, if_false, if_true]
    cases adapter (callIdx + 1) <;> rfl
  refine ⟨partA, ?_⟩
  intro hsc hA0
  have key : ∀ (M P : String) (EX : Option String),
      (genLoop adapter parse M P EX devcontainer_url regenerate 0 0 max_retries).1.filter
          (fun c => c.attempt == 0)
        = [mkCall 0 M (some "0.1") P, mkCall 0 M none P] := by
    intro M P EX
    have hshape := partA M P EX 0 0 hA0
    cases max_retries with
    | zero =>
      rcases hAS : attemptStep adapter parse M P EX devcontainer_url regenerate 0 0
        with ⟨calls, idx2, res⟩
      have hcalls : calls = [mkCall 0 M (some "0.1") P, mkCall 0 M none P] := by
        rw [hAS] at hshape
        exact hshape
      simp [genLoop, hAS, hcalls, mkCall]
    | succ r =>
      rcases hAS : attemptStep adapter parse M P EX devcontainer_url regenerate 0 0
        with ⟨calls, idx2, res⟩
      have hcalls : calls = [mkCall 0 M (some "0.1") P, mkCall 0 M none P] := by
        rw [hAS] at hshape
        exact hshape
      cases res with
      | ok v => simp [genLoop, hAS, hcalls, mkCall]
      | error e =>
        rcases hGL : genLoop adapter parse M P EX devcontainer_url regenerate 1 idx2 r
          with ⟨calls2, res2⟩
        have hrest : calls2.filter (fun c => c.attempt == 0) = [] := by
          rw [List.filter_eq_nil_iff]
          intro c hc
          have hge := genLoop_attempt_ge adapter parse M P EX devcontainer_url regenerate
            r 1 idx2 c (by rw [hGL]; exact hc)
          simp only [beq_iff_eq]
          omega
        simp [genLoop, hAS, hcalls, hGL, List.filter_append, hrest, mkCall]
  simp only [generate_devcontainer_json, hsc, Bool.false_eq_true, if_false]
  exact key _ _ _

def wMsgTemp : String := "Model does not support temperature parameter"

def wAdapterTemp : Nat → CallOutcome :=
  fun n => if n = 0 then .apiError wMsgTemp else .success "GOOD"

set_option maxRecDepth 8192 in
theorem C9_temperature_fallback_witness :
    tempSig wMsgTemp = true ∧ toolSig wMsgTemp = false ∧
      (generate_devcontainer_json charEncoding wTmpl wAdapterTemp wParse none none
          "u" "ctx" none 2 false).1.filter (fun c => c.attempt == 0)
        = [mkCall 0 (modelUsed none none) (some "0.1")
            (wTmpl "u" (truncate_context charEncoding "ctx" 126000)
              (if containsSub "ctx" existingStartMarker then
                some (extractExisting "ctx") else none)),
          mkCall 0 (modelUsed none none) none
            (wTmpl "u" (truncate_context charEncoding "ctx" 126000)
              (if containsSub "ctx" existingStartMarker then
                some (extractExisting "ctx") else none))] :=
  ⟨by decide, by decide,
    (C9_temperature_fallback charEncoding wTmpl wAdapterTemp wParse none none
        "u" "ctx" none 2 false wMsgTemp (by decide) (by decide)).2
      (by decide) rfl⟩
